import Mathlib

/-!
# Verification of the handy gesture-control pipeline

Shallow embedding of the gesture-classification and motion-control pipeline:

* `src/tracking/gestures.py`  — the five gesture classifiers and the aggregator;
* `src/tracking/pointer.py`   — the pointer smoothing state;
* `src/control/mouse_controller.py` — the motion & action controller;
* `app.py` (`process_frames`) — the per-frame wiring.

Landmark coordinates are integer pixel pairs (`hand_tracker.get_fingertips`
produces `int(landmark.x * w)`), so points are modelled as `ℤ × ℤ`.  The
floating-point scalars of the source (palm size, thresholds, confidences) are
modelled as real numbers where square roots and `arctan` appear, and as
rationals in the mouse controller, whose arithmetic is entirely rational.
Python's `int(x)` conversion truncates toward zero and is modelled accordingly.
-/

namespace Handy

/-! ## Landmark snapshot -/

/-- A 2-D integer pixel point, as produced by `HandTracker.get_fingertips`. -/
abbrev Pt := ℤ × ℤ

/-- The named landmark points the five classifiers read from the
`finger_positions` dictionary. -/
inductive Finger where
  | thumb | index | middle | ring | pinky
  | dip_index | pip_index | dip_middle | pip_middle | dip_ring | pip_ring
  | palm_center | mcp_ring | mcp_pinky | wrist
  deriving DecidableEq, Repr

/-- A landmark snapshot: the (partial) map from point names to pixel
coordinates handed to each classifier. -/
def Snapshot := Finger → Option Pt

/-- The `all(finger in finger_positions for finger in fingers)` required-point
check each classifier performs before touching any point. -/
def hasAll (fp : Snapshot) (fs : List Finger) : Bool :=
  fs.all fun f => (fp f).isSome

/-- Euclidean distance `np.sqrt((p0-q0)**2 + (p1-q1)**2)` between two points. -/
noncomputable def euclid (p q : Pt) : ℝ :=
  Real.sqrt (((p.1 - q.1 : ℤ) : ℝ) ^ 2 + ((p.2 - q.2 : ℤ) : ℝ) ^ 2)

/-- `np.arctan2(abs(dy), abs(dx)) if abs(dx) > 0.001 else np.pi/2`, the guarded
slope computation used by `move_gesture` and `scroll_gesture`.  For
`|dx| > 0.001` both arguments are nonnegative and the first is positive, where
`arctan2(y, x) = arctan (y / x)`. -/
noncomputable def segSlope (dx dy : ℤ) : ℝ :=
  if (1 : ℝ) / 1000 < |(dx : ℝ)| then Real.arctan (|(dy : ℝ)| / |(dx : ℝ)|)
  else Real.pi / 2

/-- Python `int((a + b) / 2)`: exact division then truncation toward zero, used
for the "Integer division for OpenCV coordinates" midpoints. -/
def pyHalf (a b : ℤ) : ℤ := Int.tdiv (a + b) 2

/-! ## Classifier configuration (`GestureDetector.__init__`, `self.config`) -/

/-- The numeric configuration entries of `GestureDetector.config` (the
threshold of each gesture plus the scroll speed curve).  `app.py` overwrites
them from the settings menu, so classifiers are stated over an arbitrary
configuration. -/
structure GestureConfig where
  left_click_threshold : ℝ
  right_click_threshold : ℝ
  move_threshold : ℝ
  drag_threshold : ℝ
  scroll_threshold : ℝ
  scroll_base_speed : ℝ
  scroll_max_speed : ℝ
  straightness_factor : ℝ

/-- The literal values from `GestureDetector.__init__`. -/
noncomputable def defaultConfig : GestureConfig where
  left_click_threshold := 2244444444 / 10 ^ 10
  right_click_threshold := 2244444444 / 10 ^ 10
  move_threshold := 2877777778 / 10 ^ 10
  drag_threshold := 20 / 100
  scroll_threshold := 2477777778 / 10 ^ 10
  scroll_base_speed := 20
  scroll_max_speed := 80
  straightness_factor := 33 / 10

/-- `config['left_click']['fingers']`. -/
def leftClickFingers : List Finger := [.thumb, .index]

/-- `config['right_click']['fingers']`. -/
def rightClickFingers : List Finger := [.thumb, .middle]

/-- `config['move']['fingers']`. -/
def moveFingers : List Finger :=
  [.index, .middle, .dip_middle, .pip_middle, .dip_index, .pip_index]

/-- `config['drag']['fingers']`. -/
def dragFingers : List Finger :=
  [.ring, .pinky, .palm_center, .mcp_ring, .mcp_pinky]

/-- The `required_points` list hard-coded inside `scroll_gesture`. -/
def scrollRequiredPoints : List Finger :=
  [.middle, .ring, .dip_middle, .pip_middle, .dip_ring, .pip_ring, .wrist, .palm_center]

/-! ## Distance classifiers (`GestureDetector.left_click` / `right_click`) -/

/-- `GestureDetector.left_click`: thumb–index distance against the palm-scaled
threshold; `{'left_click': confidence}` becomes `some confidence`, `{}` becomes
`none`.  The guard mirrors the source's `all(...)` check; the match then
extracts the guarded points (its fallback arm is unreachable). -/
noncomputable def left_click (cfg : GestureConfig) (fp : Snapshot) (palm_size : ℝ) :
    Option ℝ :=
  if hasAll fp leftClickFingers then
    match fp .thumb, fp .index with
    | some thumb_pos, some index_pos =>
      let distance := euclid thumb_pos index_pos
      let true_threshold := cfg.left_click_threshold * palm_size
      if distance < true_threshold then some (1 - distance / true_threshold) else none
    | _, _ => none
  else none

/-- `GestureDetector.right_click`: same computation on thumb and middle. -/
noncomputable def right_click (cfg : GestureConfig) (fp : Snapshot) (palm_size : ℝ) :
    Option ℝ :=
  if hasAll fp rightClickFingers then
    match fp .thumb, fp .middle with
    | some thumb_pos, some middle_pos =>
      let distance := euclid thumb_pos middle_pos
      let true_threshold := cfg.right_click_threshold * palm_size
      if distance < true_threshold then some (1 - distance / true_threshold) else none
    | _, _ => none
  else none

/-! ## `GestureDetector.move_gesture` -/

/-- `GestureDetector.move_gesture`: requires index and middle fingers roughly
parallel (segment slopes within 0.25 rad at both joints), then measures the
distance from the index fingertip to the truncated middle-segment midpoint
against the palm-scaled threshold. -/
noncomputable def move_gesture (cfg : GestureConfig) (fp : Snapshot) (palm_size : ℝ) :
    Option ℝ :=
  if hasAll fp moveFingers then
    match fp .index, fp .dip_index, fp .pip_index,
          fp .middle, fp .dip_middle, fp .pip_middle with
    | some first_index_pos, some second_index_pos, some third_index_pos,
      some first_middle_pos, some second_middle_pos, some third_middle_pos =>
      let top_index_slope :=
        segSlope (first_index_pos.1 - second_index_pos.1) (first_index_pos.2 - second_index_pos.2)
      let bot_index_slope :=
        segSlope (third_index_pos.1 - second_index_pos.1) (third_index_pos.2 - second_index_pos.2)
      let top_middle_slope :=
        segSlope (first_middle_pos.1 - second_middle_pos.1) (first_middle_pos.2 - second_middle_pos.2)
      let bot_middle_slope :=
        segSlope (third_middle_pos.1 - second_middle_pos.1) (third_middle_pos.2 - second_middle_pos.2)
      if 1 / 4 < |top_index_slope - top_middle_slope|
          ∨ 1 / 4 < |bot_index_slope - bot_middle_slope| then none
      else
        let middle_pos : Pt :=
          (pyHalf first_middle_pos.1 second_middle_pos.1,
           pyHalf first_middle_pos.2 second_middle_pos.2)
        let distance := euclid first_index_pos middle_pos
        let true_threshold := cfg.move_threshold * palm_size
        if distance < true_threshold then some (1 - distance / true_threshold) else none
    | _, _, _, _, _, _ => none
  else none

/-! ## `GestureDetector.drag_gesture` -/

/-- `GestureDetector.drag_gesture`: ring and pinky curl factors against a
doubled threshold, with the both-pointing-down fallback; the confidence is
clamped to `[0,1]` by `min(1.0, max(0.0, confidence))`.  (The source raises
`ZeroDivisionError` when a knuckle coincides with the palm center; the model's
`x / 0 = 0` convention differs only on that degenerate input, which no claim
touches.) -/
noncomputable def drag_gesture (cfg : GestureConfig) (fp : Snapshot) (palm_size : ℝ) :
    Option ℝ :=
  if hasAll fp dragFingers then
    match fp .ring, fp .pinky, fp .palm_center, fp .mcp_ring, fp .mcp_pinky with
    | some ring_tip, some pinky_tip, some palm_center, some mcp_ring, some mcp_pinky =>
      let ring_vector : Pt := (ring_tip.1 - mcp_ring.1, ring_tip.2 - mcp_ring.2)
      let pinky_vector : Pt := (pinky_tip.1 - mcp_pinky.1, pinky_tip.2 - mcp_pinky.2)
      let ring_distance := euclid ring_tip palm_center
      let pinky_distance := euclid pinky_tip palm_center
      let ring_extended_distance := euclid mcp_ring palm_center * 2
      let pinky_extended_distance := euclid mcp_pinky palm_center * 2
      let ring_curl_factor := ring_distance / ring_extended_distance
      let pinky_curl_factor := pinky_distance / pinky_extended_distance
      let curl_threshold := cfg.drag_threshold * 2
      let ring_clenched := decide (ring_curl_factor < curl_threshold)
      let pinky_clenched := decide (pinky_curl_factor < curl_threshold)
      let both_pointing_down := decide (0 < ring_vector.2) && decide (0 < pinky_vector.2)
      if ring_clenched && pinky_clenched || both_pointing_down then
        let confidence :=
          if ring_clenched && pinky_clenched then
            1 - (ring_curl_factor + pinky_curl_factor) / 2 / curl_threshold
          else (7 : ℝ) / 10
        some (min 1 (max 0 confidence))
      else none
    | _, _, _, _, _ => none
  else none

/-! ## `GestureDetector.scroll_gesture` -/

/-- The per-finger straightness score of `scroll_gesture`:
`1.0 - min(abs(top_slope - bot_slope), np.pi/4) / (np.pi/4)`. -/
noncomputable def straightnessScore (top bot : ℝ) : ℝ :=
  1 - min |top - bot| (Real.pi / 4) / (Real.pi / 4)

/-- The scroll speed curve of `scroll_gesture`:
`base_speed + (avg_straightness ** straightness_factor) * (max_speed - base_speed)`
(`**` on floats is real exponentiation, `Real.rpow`). -/
noncomputable def scrollSpeed (cfg : GestureConfig) (avg_straightness : ℝ) : ℝ :=
  cfg.scroll_base_speed +
    avg_straightness ^ cfg.straightness_factor * (cfg.scroll_max_speed - cfg.scroll_base_speed)

/-- The `avg_straightness` value `scroll_gesture` computes from the middle and
ring finger segments (`0` when a required point is absent, in which case
`scroll_gesture` never reads it). -/
noncomputable def scrollAvgStraightness (fp : Snapshot) : ℝ :=
  match fp .middle, fp .dip_middle, fp .pip_middle, fp .ring, fp .dip_ring, fp .pip_ring with
  | some m1, some m2, some m3, some r1, some r2, some r3 =>
    (straightnessScore (segSlope (m1.1 - m2.1) (m1.2 - m2.2))
        (segSlope (m3.1 - m2.1) (m3.2 - m2.2)) +
      straightnessScore (segSlope (r1.1 - r2.1) (r1.2 - r2.2))
        (segSlope (r3.1 - r2.1) (r3.2 - r2.2))) / 2
  | _, _, _, _, _, _ => 0

/-- `GestureDetector.scroll_gesture`: both fingers must point the same vertical
way and be mutually parallel; the middle–ring fingertip distance is gated by
the palm-scaled threshold; on success returns
`some (confidence, scroll_direction)` (the dict `{'scroll': …,
'scroll_direction': …}`).  The `ring_pos` midpoint the source computes is dead
code and is omitted. -/
noncomputable def scroll_gesture (cfg : GestureConfig) (fp : Snapshot) (palm_size : ℝ) :
    Option (ℝ × ℝ) :=
  if hasAll fp scrollRequiredPoints then
    match fp .middle, fp .dip_middle, fp .pip_middle,
          fp .ring, fp .dip_ring, fp .pip_ring, fp .wrist, fp .palm_center with
    | some first_middle_pos, some second_middle_pos, some third_middle_pos,
      some first_ring_pos, some second_ring_pos, some third_ring_pos,
      some _wrist_pos, some _palm_center =>
      let middle_vector : Pt :=
        (first_middle_pos.1 - third_middle_pos.1, first_middle_pos.2 - third_middle_pos.2)
      let ring_vector : Pt :=
        (first_ring_pos.1 - third_ring_pos.1, first_ring_pos.2 - third_ring_pos.2)
      let middle_pointing_up := decide (middle_vector.2 < 0)
      let ring_pointing_up := decide (ring_vector.2 < 0)
      if middle_pointing_up ≠ ring_pointing_up then none
      else
        let top_middle_slope :=
          segSlope (first_middle_pos.1 - second_middle_pos.1)
            (first_middle_pos.2 - second_middle_pos.2)
        let bot_middle_slope :=
          segSlope (third_middle_pos.1 - second_middle_pos.1)
            (third_middle_pos.2 - second_middle_pos.2)
        let top_ring_slope :=
          segSlope (first_ring_pos.1 - second_ring_pos.1)
            (first_ring_pos.2 - second_ring_pos.2)
        let bot_ring_slope :=
          segSlope (third_ring_pos.1 - second_ring_pos.1)
            (third_ring_pos.2 - second_ring_pos.2)
        if 1 / 4 < |top_middle_slope - top_ring_slope|
            ∨ 1 / 4 < |bot_middle_slope - bot_ring_slope| then none
        else
          let middle_straightness := straightnessScore top_middle_slope bot_middle_slope
          let ring_straightness := straightnessScore top_ring_slope bot_ring_slope
          let avg_straightness := (middle_straightness + ring_straightness) / 2
          let distance := euclid first_middle_pos first_ring_pos
          let true_threshold := cfg.scroll_threshold * palm_size
          if distance < true_threshold then
            let confidence := 1 - distance / true_threshold
            let speed_multiplier := scrollSpeed cfg avg_straightness
            let direction :=
              if middle_pointing_up then -speed_multiplier else speed_multiplier
            some (confidence, direction)
          else none
    | _, _, _, _, _, _, _, _ => none
  else none

/-! ## Gesture aggregator (`GestureDetector.detect_gestures`)

`detect_gestures` submits the five classifiers to a thread pool and iterates
`concurrent.futures.as_completed(futures, timeout=0.05)`.  The timing is
abstracted into the outcome each future shows to that loop: it either completed
within the 50 ms deadline (returning its gesture dict, or having raised — the
`except Exception` arm catches the re-raise of `future.result()` and skips it),
or it is still pending when the deadline expires.  `as_completed` yields the
completed futures in completion order; if a future is still pending when the
deadline expires, the iterator itself raises `concurrent.futures.TimeoutError`
at the `for` statement — *outside* the `try`/`except` placed around
`future.result()` — so the exception escapes `detect_gestures` and the
partially merged dict is discarded. -/

/-- Gesture names, the keys of the aggregated gesture dict. -/
inductive GKey where
  | left_click | right_click | move | drag | scroll | scroll_direction
  deriving DecidableEq, Repr

/-- A classifier result dict / the merged gesture map. -/
abbrev GMap := List (GKey × ℚ)

/-- What one classifier future shows to the collection loop of
`detect_gestures` for one frame. -/
inductive FutureOutcome where
  /-- finished within the deadline; `future.result()` returns this dict -/
  | completed (result : GMap)
  /-- finished within the deadline by raising; caught by `except Exception` -/
  | raised
  /-- not finished when the 50 ms deadline expires -/
  | pending
  deriving DecidableEq, Repr

/-- Python `dict.update`: existing keys keep their slot with the new value,
new keys are appended. -/
def dictUpdate (m r : GMap) : GMap :=
  m.filter (fun kv => r.all fun kv2 => kv2.1 ≠ kv.1) ++ r

/-- The merging loop body of `detect_gestures`: each yielded completed future's
dict is merged with `gestures.update(result)`; a raising classifier is logged
and skipped; pending futures are never yielded. -/
def collectCompleted : List FutureOutcome → GMap → GMap
  | [], gestures => gestures
  | .completed result :: rest, gestures => collectCompleted rest (dictUpdate gestures result)
  | .raised :: rest, gestures => collectCompleted rest gestures
  | .pending :: rest, gestures => collectCompleted rest gestures

/-- The observable result of `detect_gestures`: either the merged gesture map,
or the uncaught `concurrent.futures.TimeoutError` escaping to the caller. -/
inductive AggResult where
  | ok (gestures : GMap)
  | timeoutError
  deriving DecidableEq, Repr

/-- `GestureDetector.detect_gestures`, over the futures' outcomes listed in
completion order: if every future completes within the deadline the merged map
is returned; if any future is still pending at the deadline, the `as_completed`
iterator raises `TimeoutError` after yielding the completed ones, the `for`
loop aborts, and the merged-so-far dict is lost. -/
def detect_gestures_agg (futures : List FutureOutcome) : AggResult :=
  if futures.any (· = .pending) then .timeoutError
  else .ok (collectCompleted futures [])

/-! ## Pointer smoothing (`src/tracking/pointer.py`, class `Pointer`)

The wall-clock velocity bookkeeping of `update_position` (`time.time()`,
`self.velocity`) is omitted: it writes only `velocity`/`last_update_time`,
which no position computation reads. -/

/-- The position state of one `Pointer`. -/
structure Pointer where
  /-- `self.position`, initialised to `(0, 0)` -/
  position : Pt
  /-- `self.prev_positions`, initialised to `[]`; `history_size` is 5 -/
  prev_positions : List Pt
  deriving DecidableEq, Repr

/-- A freshly constructed `Pointer` (its empty-history reset state). -/
def Pointer.init : Pointer := ⟨(0, 0), []⟩

/-- `Pointer.update_position`: appends the *current* (pre-update) position to
the history, drops the oldest entry beyond `history_size = 5`, then stores the
new position. -/
def Pointer.update_position (p : Pointer) (position : Pt) : Pointer :=
  let prev := p.prev_positions ++ [p.position]
  let prev := if prev.length > 5 then prev.drop 1 else prev
  ⟨position, prev⟩

/-- Python `int(q)` on a float: truncation toward zero. -/
def pytrunc (q : ℚ) : ℤ := if 0 ≤ q then ⌊q⌋ else -⌊-q⌋

/-- `Pointer.get_smoothed_position`: the raw position while the history is
empty, otherwise the exponentially weighted average of
`prev_positions + [position]` with weights `0.7 ** (len(positions) - i)`,
truncated to integers by `int(...)`. -/
def Pointer.get_smoothed_position (p : Pointer) : Pt :=
  if p.prev_positions = [] then p.position
  else
    let positions := p.prev_positions ++ [p.position]
    let n := positions.length
    let weights := (List.range n).map fun i => ((7 : ℚ) / 10) ^ (n - i)
    let weight_sum := weights.sum
    let x_sum := ((positions.zip weights).map fun pw => (pw.1.1 : ℚ) * pw.2).sum
    let y_sum := ((positions.zip weights).map fun pw => (pw.1.2 : ℚ) * pw.2).sum
    (pytrunc (x_sum / weight_sum), pytrunc (y_sum / weight_sum))

/-! ## Motion & action controller (`src/control/mouse_controller.py`)

All arithmetic of `update_mouse` is rational, so palm sizes, times, gesture
confidences and emitted deltas are modelled as `ℚ` (floats in the source).
`time.time()` is passed in as the `current_time` argument.  The fields
`screen_width/height`, `smoothing`, `inactivity_time`, `inactivity_threshold`,
`last_cursor_position` and `last_active_time` are never read by `update_mouse`
and are omitted from the state. -/

/-- The gesture dict as the controller consumes it: a value is `some c` exactly
when the key is present (`'move' in gestures`, …). -/
structure Gestures where
  move : Option ℚ := none
  drag : Option ℚ := none
  left_click : Option ℚ := none
  right_click : Option ℚ := none
  scroll : Option ℚ := none
  scroll_direction : Option ℚ := none
  deriving DecidableEq, Repr

/-- Mouse buttons. -/
inductive MouseButton where
  | left | right
  deriving DecidableEq, Repr

/-- The output actions `update_mouse` sends to `pyautogui`. -/
inductive MouseAction where
  /-- `pyautogui.moveRel(dx, dy, duration=0)` -/
  | moveRel (dx dy : ℚ)
  /-- `pyautogui.mouseDown(button=…)` -/
  | mouseDown (button : MouseButton)
  /-- `pyautogui.mouseUp(button=…)` -/
  | mouseUp (button : MouseButton)
  /-- `pyautogui.scroll(clicks)` -/
  | scroll (clicks : ℤ)
  deriving DecidableEq, Repr

/-- The mutable state of `MouseController` read or written by `update_mouse`.
`click_cooldown` is the constant `0.05`, `dead_zone` the constant `0.8`. -/
structure MouseState where
  /-- the `sensitivity` constructor argument -/
  sensitivity : ℚ
  last_raw_position : Option Pt
  is_moving : Bool
  left_button_down : Bool
  right_button_down : Bool
  last_click_time : ℚ
  /-- created by the initialisation branch; `[]` until then -/
  position_history : List Pt
  /-- `hasattr(self, 'last_delta')` is `false` until a branch sets it -/
  last_delta : Option (ℚ × ℚ)
  deriving DecidableEq, Repr

/-- `MouseController.__init__` (state portion). -/
def MouseState.init (sensitivity : ℚ) : MouseState :=
  ⟨sensitivity, none, false, false, false, 0, [], none⟩

/-- The palm-size sensitivity scaling of `update_mouse` (lines 72–86):
`base_palm_size = 110`, scaling clamped to `[0.5, 2.0]`. -/
def effectiveSensitivity (sensitivity : ℚ) (palm_size : Option ℚ) : ℚ :=
  match palm_size with
  | some p => if 0 < p then sensitivity * max (1 / 2) (min (110 / p) 2) else sensitivity
  | none => sensitivity

/-- The dead-zone shaping of one delta axis (lines 110–120): zero below the
0.8 dead zone, otherwise reduced by it with the sign kept via
`delta / abs(delta)`. -/
def deadZoneAdjust (v : ℚ) : ℚ :=
  if |v| < 4 / 5 then 0 else (|v| - 4 / 5) * (v / |v|)

/-- Lines 156–166 (and symmetrically 168–178): press-and-hold handling for one
button once the cooldown check has passed.  `held` is the button's
`*_button_down` flag; returns the new flag, the click-time update (if any) and
the emitted action. -/
def buttonStep (button : MouseButton) (pressed held : Bool) (current_time : ℚ) :
    Bool × Option ℚ × List MouseAction :=
  if pressed then
    if !held then (true, some current_time, [.mouseDown button])
    else (held, none, [])
  else if held then (false, none, [.mouseUp button])
  else (held, none, [])

/-- Lines 180–192: scroll emission. `int(direction * 3)` truncates toward
zero; amounts with `abs(scroll_amount) > 0.5` (i.e. nonzero, the amount being
an int) are emitted sign-inverted. -/
def scrollStep (g : Gestures) : List MouseAction :=
  if g.scroll.isSome then
    match g.scroll_direction with
    | some direction =>
      let scroll_amount : ℤ := pytrunc (direction * 3)
      if 1 / 2 < |(scroll_amount : ℚ)| then [.scroll (-scroll_amount)] else []
    | none => []
  else []

/-- Lines 122–149: the relative-motion branch.  `delta_x`/`delta_y` are the
dead-zone-adjusted deltas; if motion fires, the direction is inverted once
more, blended 70/30 with `last_delta` (when set), stored, scaled by 1.5 and
emitted; otherwise a fading `is_moving` flag is cleared. -/
def motionPhase (st : MouseState) (should_move : Bool) (delta_x delta_y : ℚ) :
    MouseState × List MouseAction :=
  if should_move && (decide (0 < |delta_x|) || decide (0 < |delta_y|)) then
    -- invert movement direction (lines 124–126)
    let delta_x := -delta_x
    let delta_y := -delta_y
    let smooth :=
      match st.last_delta with
      | some (lx, ly) =>
        (delta_x * (7 / 10) + lx * (3 / 10), delta_y * (7 / 10) + ly * (3 / 10))
      | none => (delta_x, delta_y)
    ({ st with is_moving := true, last_delta := some (delta_x, delta_y) },
      [.moveRel (smooth.1 * (3 / 2)) (smooth.2 * (3 / 2))])
  else
    (if st.is_moving && !should_move then { st with is_moving := false } else st, [])

/-- Lines 154–178: both press-and-hold blocks, gated by the single cooldown
check of line 155 (evaluated once; a left press updating `last_click_time`
does not re-gate the right block within the same frame). -/
def clickPhase (st : MouseState) (g : Gestures) (cooldown_ok : Bool)
    (current_time : ℚ) : MouseState × List MouseAction :=
  let r1 :=
    if cooldown_ok then
      let b := buttonStep .left g.left_click.isSome st.left_button_down current_time
      ({ st with left_button_down := b.1,
                 last_click_time := b.2.1.getD st.last_click_time }, b.2.2)
    else (st, [])
  let r2 :=
    if cooldown_ok then
      let b := buttonStep .right g.right_click.isSome r1.1.right_button_down current_time
      ({ r1.1 with right_button_down := b.1,
                   last_click_time := b.2.1.getD r1.1.last_click_time }, b.2.2)
    else (r1.1, [])
  (r2.1, r1.2 ++ r2.2)

/-- `MouseController.update_mouse`.  `pointer_pos` is
`finger_tracker.get_primary_pointer_position()`; `current_time` is
`time.time()`.  Returns the successor state and the ordered list of
`pyautogui` calls made during the frame. -/
def update_mouse (st : MouseState) (pointer_pos : Option Pt) (gestures : Gestures)
    (palm_size : Option ℚ) (current_time : ℚ) : MouseState × List MouseAction :=
  match pointer_pos with
  | none => (st, [])
  | some (raw_x, raw_y) =>
    let move_active := gestures.move.isSome
    let drag_active := gestures.drag.isSome &&
      (st.left_button_down || st.right_button_down ||
        gestures.left_click.isSome || gestures.right_click.isSome)
    let should_move := move_active || drag_active
    let effective_sensitivity := effectiveSensitivity st.sensitivity palm_size
    if st.last_raw_position = none then
      -- lines 91–96: initialise tracking and return
      ({ st with last_raw_position := some (raw_x, raw_y),
                 last_delta := some (0, 0),
                 position_history := List.replicate 5 (raw_x, raw_y) }, [])
    else
      let last := st.last_raw_position.getD (raw_x, raw_y)
      let position_history := st.position_history ++ [(raw_x, raw_y)]
      let position_history :=
        if position_history.length > 5 then position_history.drop 1 else position_history
      let delta_x := ((raw_x - last.1 : ℤ) : ℚ) * (-effective_sensitivity)
      let delta_y := ((raw_y - last.2 : ℤ) : ℚ) * (-effective_sensitivity)
      let delta_x := deadZoneAdjust delta_x
      let delta_y := deadZoneAdjust delta_y
      let mv := motionPhase st should_move delta_x delta_y
      let st2 := { mv.1 with last_raw_position := some (raw_x, raw_y),
                             position_history := position_history }
      -- button handling, gated once by the cooldown window (line 155)
      let cooldown_ok := decide ((1 : ℚ) / 20 < current_time - st.last_click_time)
      let ck := clickPhase st2 gestures cooldown_ok current_time
      (ck.1, mv.2 ++ ck.2 ++ scrollStep gestures)

/-- One frame input to the controller, as `app.py.process_frames` supplies it. -/
structure MouseInput where
  pointer_pos : Option Pt
  gestures : Gestures
  palm_size : Option ℚ
  current_time : ℚ

/-- A sequence of `update_mouse` calls, accumulating the emitted actions. -/
def runMouse (st : MouseState) : List MouseInput → MouseState × List MouseAction
  | [] => (st, [])
  | i :: rest =>
    let r := update_mouse st i.pointer_pos i.gestures i.palm_size i.current_time
    let rr := runMouse r.1 rest
    (rr.1, r.2 ++ rr.2)

/-- The per-frame dispatch of `app.py.process_frames`: when a hand is detected
the controller is updated with the pointer position, gesture map and palm
size; when `fingertips_list` is empty, `update_mouse` is *not* called (only
`current_gestures` and the tracker's active flag are touched), so the
controller state is left as it was. -/
def processFrame (st : MouseState) (hand : Option (Pt × Gestures × Option ℚ))
    (current_time : ℚ) : MouseState × List MouseAction :=
  match hand with
  | none => (st, [])
  | some (pos, gestures, palm) => update_mouse st (some pos) gestures palm current_time

/-! ## Derived observations on action traces -/

/-- The press/release events a trace of actions contains for one button, in
order: `true` for a press, `false` for a release. -/
def buttonEvents (b : MouseButton) (acts : List MouseAction) : List Bool :=
  acts.filterMap fun a =>
    match a with
    | .mouseDown b' => if b' = b then some true else none
    | .mouseUp b' => if b' = b then some false else none
    | _ => none

/-- `altFrom e evs`: the event list `evs` strictly alternates, starting with
`e` (`altFrom true` = press, release, press, …). -/
def altFrom : Bool → List Bool → Prop
  | _, [] => True
  | e, x :: rest => x = e ∧ altFrom (!e) rest

/-- The held flag of one button. -/
def heldFlag (b : MouseButton) (st : MouseState) : Bool :=
  match b with
  | .left => st.left_button_down
  | .right => st.right_button_down

/-! ## Test fixtures and helper lemmas -/

/-- A gesture dict containing only `move`. -/
def gMoveOnly : Gestures := { move := some (9 / 10) }

/-- A gesture dict containing only `left_click`. -/
def gLeftOnly : Gestures := { left_click := some (9 / 10) }

/-- A snapshot containing no points at all. -/
def emptySnap : Snapshot := fun _ => none

/-- A snapshot holding only a thumb and an index fingertip. -/
def snapTI (t i : Pt) : Snapshot := fun f =>
  match f with
  | .thumb => some t
  | .index => some i
  | _ => none

/-- The end-to-end scenario's configuration: `left_click.threshold = 0.22`
(the configuration is mutable through the settings menu). -/
noncomputable def scenarioConfig : GestureConfig :=
  { defaultConfig with left_click_threshold := 22 / 100 }

/-- A snapshot with all coordinates scaled by `k` (the claimed
scale-invariance transformation). -/
def scaleSnap (k : ℤ) (fp : Snapshot) : Snapshot :=
  fun f => (fp f).map fun p => (k * p.1, k * p.2)

/-- A move-gesture snapshot whose middle-finger top segment has odd
coordinate sums, so the `int((a+b)/2)` midpoint truncates. -/
def snapC7 : Snapshot := fun f =>
  match f with
  | .index => some (0, 0)
  | .dip_index => some (1, 10)
  | .pip_index => some (1, 20)
  | .middle => some (10, 0)
  | .dip_middle => some (11, 10)
  | .pip_middle => some (11, 20)
  | _ => none

/-- `pytrunc` of an integer is that integer. -/
lemma pytrunc_intCast (n : ℤ) : pytrunc (n : ℚ) = n := by
  unfold pytrunc
  split
  · exact Int.floor_intCast n
  · rw [show (-(n : ℚ)) = ((-n : ℤ) : ℚ) by push_cast; ring, Int.floor_intCast]
    ring

/-- Smoothing a history entirely equal to `c` returns exactly `c`. -/
lemma get_smoothed_const (c : Pt) :
    (Pointer.mk c [c, c, c, c, c]).get_smoothed_position = c := by
  obtain ⟨cx, cy⟩ := c
  have key : ∀ z : ℤ,
      pytrunc ((↑z * (117649 / 1000000) + (↑z * (16807 / 100000) + (↑z * (2401 / 10000) +
        (↑z * (343 / 1000) + (↑z * (49 / 100) + ↑z * (7 / 10)))))) / (2058819 / 1000000 : ℚ)) = z := by
    intro z
    rw [show (↑z * (117649 / 1000000) + (↑z * (16807 / 100000) + (↑z * (2401 / 10000) +
        (↑z * (343 / 1000) + (↑z * (49 / 100) + ↑z * (7 / 10)))))) / (2058819 / 1000000 : ℚ)
      = (z : ℚ) from by ring]
    exact pytrunc_intCast z
  simp only [Pointer.get_smoothed_position]
  norm_num [List.range_succ]
  exact fun _ => ⟨key cx, key cy⟩

/-- `Pointer.update_position` with the state destructured, for stepwise
rewriting. -/
lemma update_position_eq (pos : Pt) (prev : List Pt) (c : Pt) :
    (Pointer.mk pos prev).update_position c =
      ⟨c, if (prev ++ [pos]).length > 5 then (prev ++ [pos]).drop 1 else prev ++ [pos]⟩ := rfl

/-- `buttonEvents` distributes over concatenation. -/
lemma buttonEvents_append (b : MouseButton) (l1 l2 : List MouseAction) :
    buttonEvents b (l1 ++ l2) = buttonEvents b l1 ++ buttonEvents b l2 :=
  List.filterMap_append _ _ _

/-- Scroll actions carry no button events. -/
lemma buttonEvents_scrollStep (b : MouseButton) (g : Gestures) :
    buttonEvents b (scrollStep g) = [] := by
  unfold scrollStep
  split
  · split
    · dsimp only
      split <;> rfl
    · rfl
  · rfl

/-- The motion phase emits no button events and leaves both held flags
unchanged. -/
lemma motionPhase_spec (st : MouseState) (sm : Bool) (dx dy : ℚ) (b : MouseButton) :
    buttonEvents b (motionPhase st sm dx dy).2 = []
    ∧ heldFlag b (motionPhase st sm dx dy).1 = heldFlag b st := by
  unfold motionPhase
  rcases b <;> split <;> simp [buttonEvents, heldFlag] <;> split <;> rfl

/-- The click phase emits, per button, either no event with the flag kept, a
single press from the released state, or a single release from the held
state. -/
lemma clickPhase_spec (st : MouseState) (g : Gestures) (cd : Bool) (t : ℚ) (b : MouseButton) :
    (buttonEvents b (clickPhase st g cd t).2 = [] ∧
      heldFlag b (clickPhase st g cd t).1 = heldFlag b st)
  ∨ (buttonEvents b (clickPhase st g cd t).2 = [true] ∧
      heldFlag b st = false ∧ heldFlag b (clickPhase st g cd t).1 = true)
  ∨ (buttonEvents b (clickPhase st g cd t).2 = [false] ∧
      heldFlag b st = true ∧ heldFlag b (clickPhase st g cd t).1 = false) := by
  unfold clickPhase buttonStep
  rcases b
  all_goals rcases cd with _ | _
  all_goals rcases hl : g.left_click.isSome with _ | _
  all_goals rcases hr : g.right_click.isSome with _ | _
  all_goals rcases hld : st.left_button_down with _ | _
  all_goals rcases hrd : st.right_button_down with _ | _
  all_goals simp [hl, hr, hld, hrd, buttonEvents, heldFlag]

/-- Updating the raw position and history fields does not touch the held
flags. -/
lemma heldFlag_st2 (b : MouseButton) (m : MouseState) (p : Option Pt) (h : List Pt) :
    heldFlag b { m with last_raw_position := p, position_history := h } = heldFlag b m := by
  rcases b <;> rfl

/-- The shape of `update_mouse` past the initialisation guard: a motion phase,
a click phase on the position-updated state, and the scroll actions. -/
lemma update_mouse_shape (st : MouseState) (x y : ℤ) (g : Gestures) (palm : Option ℚ)
    (t : ℚ) (hinit : ¬st.last_raw_position = none) :
    ∃ (sm : Bool) (dx dy : ℚ) (ph : List Pt),
      update_mouse st (some (x, y)) g palm t =
        ((clickPhase { (motionPhase st sm dx dy).1 with
            last_raw_position := some (x, y), position_history := ph } g
            (decide ((1 : ℚ) / 20 < t - st.last_click_time)) t).1,
         (motionPhase st sm dx dy).2 ++
           (clickPhase { (motionPhase st sm dx dy).1 with
              last_raw_position := some (x, y), position_history := ph } g
              (decide ((1 : ℚ) / 20 < t - st.last_click_time)) t).2 ++
           scrollStep g) := by
  refine ⟨g.move.isSome || (g.drag.isSome && (st.left_button_down || st.right_button_down ||
      g.left_click.isSome || g.right_click.isSome)),
    deadZoneAdjust (((x - (st.last_raw_position.getD (x, y)).1 : ℤ) : ℚ) *
      -(effectiveSensitivity st.sensitivity palm)),
    deadZoneAdjust (((y - (st.last_raw_position.getD (x, y)).2 : ℤ) : ℚ) *
      -(effectiveSensitivity st.sensitivity palm)),
    (if (st.position_history ++ [(x, y)]).length > 5 then (st.position_history ++ [(x, y)]).drop 1
      else st.position_history ++ [(x, y)]), ?_⟩
  unfold update_mouse
  dsimp only
  rw [if_neg hinit]

/-- One `update_mouse` call emits, per button, either no event (flag kept), a
single press from the released state, or a single release from the held
state. -/
lemma update_mouse_button_step (st : MouseState) (pos : Option Pt) (g : Gestures)
    (palm : Option ℚ) (t : ℚ) (b : MouseButton) :
    (buttonEvents b (update_mouse st pos g palm t).2 = [] ∧
      heldFlag b (update_mouse st pos g palm t).1 = heldFlag b st)
  ∨ (buttonEvents b (update_mouse st pos g palm t).2 = [true] ∧
      heldFlag b st = false ∧ heldFlag b (update_mouse st pos g palm t).1 = true)
  ∨ (buttonEvents b (update_mouse st pos g palm t).2 = [false] ∧
      heldFlag b st = true ∧ heldFlag b (update_mouse st pos g palm t).1 = false) := by
  rcases pos with _ | ⟨x, y⟩
  · exact Or.inl ⟨rfl, rfl⟩
  · by_cases hinit : st.last_raw_position = none
    · unfold update_mouse
      dsimp only
      rw [if_pos hinit]
      exact Or.inl ⟨rfl, by rcases b <;> rfl⟩
    · obtain ⟨sm, dx, dy, ph, heq⟩ := update_mouse_shape st x y g palm t hinit
      rw [heq]
      have hflag : heldFlag b { (motionPhase st sm dx dy).1 with
          last_raw_position := some (x, y), position_history := ph } = heldFlag b st := by
        rw [heldFlag_st2, (motionPhase_spec st sm dx dy b).2]
      rw [buttonEvents_append, buttonEvents_append, buttonEvents_scrollStep,
        (motionPhase_spec st sm dx dy b).1, List.append_nil, List.nil_append]
      rcases clickPhase_spec { (motionPhase st sm dx dy).1 with
          last_raw_position := some (x, y), position_history := ph } g
          (decide ((1 : ℚ) / 20 < t - st.last_click_time)) t b with h | h | h
      · exact Or.inl ⟨h.1, by rw [h.2, hflag]⟩
      · exact Or.inr (Or.inl ⟨h.1, by rw [← hflag, h.2.1], h.2.2⟩)
      · exact Or.inr (Or.inr ⟨h.1, by rw [← hflag, h.2.1], h.2.2⟩)

/-- A press action in a trace shows up as a `true` button event. -/
lemma mem_buttonEvents_down (b : MouseButton) (acts : List MouseAction)
    (h : MouseAction.mouseDown b ∈ acts) : true ∈ buttonEvents b acts :=
  List.mem_filterMap.2 ⟨_, h, by simp⟩

/-- A release action in a trace shows up as a `false` button event. -/
lemma mem_buttonEvents_up (b : MouseButton) (acts : List MouseAction)
    (h : MouseAction.mouseUp b ∈ acts) : false ∈ buttonEvents b acts :=
  List.mem_filterMap.2 ⟨_, h, by simp⟩

/-- A press is only ever emitted while the button's held flag is clear. -/
lemma down_requires_not_held (st : MouseState) (pos : Option Pt) (g : Gestures)
    (palm : Option ℚ) (t : ℚ) (b : MouseButton)
    (h : MouseAction.mouseDown b ∈ (update_mouse st pos g palm t).2) :
    heldFlag b st = false := by
  rcases update_mouse_button_step st pos g palm t b with hs | hs | hs
  · have := mem_buttonEvents_down b _ h
    rw [hs.1] at this
    simp at this
  · exact hs.2.1
  · have := mem_buttonEvents_down b _ h
    rw [hs.1] at this
    simp at this

/-- A release is only ever emitted while the button's held flag is set. -/
lemma up_requires_held (st : MouseState) (pos : Option Pt) (g : Gestures)
    (palm : Option ℚ) (t : ℚ) (b : MouseButton)
    (h : MouseAction.mouseUp b ∈ (update_mouse st pos g palm t).2) :
    heldFlag b st = true := by
  rcases update_mouse_button_step st pos g palm t b with hs | hs | hs
  · have := mem_buttonEvents_up b _ h
    rw [hs.1] at this
    simp at this
  · have := mem_buttonEvents_up b _ h
    rw [hs.1] at this
    simp at this
  · exact hs.2.1

/-- Over any call sequence, a button's events alternate starting from the
complement of its current held flag. -/
lemma altFrom_runMouse (b : MouseButton) (inputs : List MouseInput) :
    ∀ st : MouseState, altFrom (!heldFlag b st) (buttonEvents b (runMouse st inputs).2) := by
  induction inputs with
  | nil => intro st; exact trivial
  | cons i rest ih =>
    intro st
    simp only [runMouse, buttonEvents_append]
    rcases update_mouse_button_step st i.pointer_pos i.gestures i.palm_size i.current_time b
      with h | h | h
    · rw [h.1, List.nil_append, ← h.2]
      exact ih _
    · rw [h.1, h.2.1]
      refine ⟨rfl, ?_⟩
      have := ih (update_mouse st i.pointer_pos i.gestures i.palm_size i.current_time).1
      rwa [h.2.2] at this
    · rw [h.1, h.2.1]
      refine ⟨rfl, ?_⟩
      have := ih (update_mouse st i.pointer_pos i.gestures i.palm_size i.current_time).1
      rwa [h.2.2] at this

/-- The palm-scaled effective sensitivity is positive for positive base
sensitivity. -/
lemma effectiveSensitivity_pos (s : ℚ) (palm : Option ℚ) (hs : 0 < s) :
    0 < effectiveSensitivity s palm := by
  unfold effectiveSensitivity
  rcases palm with _ | p
  · exact hs
  · dsimp only
    split
    · exact mul_pos hs (lt_of_lt_of_le (by norm_num) (le_max_left _ _))
    · exact hs

/-- Past the dead zone, the adjusted delta keeps the sign of the raw delta
and is nonzero. -/
lemma deadZoneAdjust_sign (v : ℚ) (h : 4 / 5 < |v|) : 0 < deadZoneAdjust v * v := by
  unfold deadZoneAdjust
  rw [if_neg (not_lt.mpr h.le)]
  have hv : v ≠ 0 := by
    intro h0
    rw [h0] at h
    norm_num at h
  have habs : 0 < |v| := abs_pos.mpr hv
  have h1 : 0 < |v| - 4 / 5 := by linarith
  have h2 : (|v| - 4 / 5) * (v / |v|) * v = (|v| - 4 / 5) * (v * v) / |v| := by ring
  rw [h2]
  exact div_pos (mul_pos h1 (mul_self_pos.mpr hv)) habs

/-- The dead-zone-adjusted scaled delta `deadZoneAdjust (d * -eff)` has the
sign opposite the raw displacement `d` when it clears the dead zone. -/
lemma dz_mul_neg (d eff : ℚ) (heff : 0 < eff) (h : 4 / 5 < |d| * eff) :
    deadZoneAdjust (d * -eff) * d < 0 := by
  have habs : |d * -eff| = |d| * eff := by
    rw [abs_mul, abs_neg, abs_of_pos heff]
  have hsign := deadZoneAdjust_sign (d * -eff) (by rw [habs]; exact h)
  nlinarith [hsign]

/-- The initialisation branch of `update_mouse` (lines 91–96): the raw
position is recorded, the history seeded, `last_delta` zeroed, and nothing is
emitted. -/
lemma update_mouse_init (st : MouseState) (p : Pt) (g : Gestures) (palm : Option ℚ) (t : ℚ)
    (h : st.last_raw_position = none) :
    update_mouse st (some p) g palm t =
      ({ st with last_raw_position := some p, last_delta := some (0, 0),
                 position_history := List.replicate 5 p }, []) := by
  obtain ⟨x, y⟩ := p
  unfold update_mouse
  dsimp only
  rw [if_pos h]

/-- With `last_delta = (0,0)` and a nonzero x-delta, the motion phase emits
exactly one `moveRel`, whose value is the re-inverted delta scaled by
`0.7 * 1.5 = 21/20`. -/
lemma motionPhase_emits (st : MouseState) (dx dy : ℚ) (hld : st.last_delta = some (0, 0))
    (hdx : dx ≠ 0) :
    (motionPhase st true dx dy).2 = [.moveRel (-dx * (21 / 20)) (-dy * (21 / 20))] := by
  unfold motionPhase
  rw [hld]
  have hc : (true && (decide (0 < |dx|) || decide (0 < |dy|))) = true := by
    simp [abs_pos.mpr hdx]
  rw [if_pos hc]
  dsimp only
  simp only [MouseAction.moveRel.injEq, List.cons.injEq, and_true]
  constructor <;> ring

/-- A tracking-state `update_mouse` call with `move` active and per-axis
scaled displacement clearing the dead zone emits a `moveRel` whose components
have the *same* sign as the raw displacement (the `-sensitivity` factor of
line 104 and the inversion of lines 124–126 cancel). -/
lemma update_mouse_second_emits (st : MouseState) (lp : Pt) (x y : ℤ) (g : Gestures)
    (palm : Option ℚ) (t : ℚ)
    (hlast : st.last_raw_position = some lp)
    (hld : st.last_delta = some (0, 0))
    (hs : 0 < st.sensitivity)
    (hmove : g.move.isSome = true)
    (hdx : 4 / 5 < |((x - lp.1 : ℤ) : ℚ)| * effectiveSensitivity st.sensitivity palm)
    (hdy : 4 / 5 < |((y - lp.2 : ℤ) : ℚ)| * effectiveSensitivity st.sensitivity palm) :
    ∃ mx my : ℚ,
      MouseAction.moveRel mx my ∈ (update_mouse st (some (x, y)) g palm t).2
      ∧ 0 < mx * ((x - lp.1 : ℤ) : ℚ) ∧ 0 < my * ((y - lp.2 : ℤ) : ℚ) := by
  have hne : ¬st.last_raw_position = none := by rw [hlast]; simp
  have heff : 0 < effectiveSensitivity st.sensitivity palm :=
    effectiveSensitivity_pos _ _ hs
  have hdzx := dz_mul_neg ((x - lp.1 : ℤ) : ℚ) _ heff hdx
  have hdzy := dz_mul_neg ((y - lp.2 : ℤ) : ℚ) _ heff hdy
  have hx0 : deadZoneAdjust (((x - lp.1 : ℤ) : ℚ) *
      -(effectiveSensitivity st.sensitivity palm)) ≠ 0 := by
    intro h0
    rw [h0, zero_mul] at hdzx
    exact lt_irrefl 0 hdzx
  unfold update_mouse
  dsimp only
  rw [if_neg hne, hlast]
  simp only [Option.getD_some, hmove, Bool.true_or]
  rw [motionPhase_emits _ _ _ hld hx0]
  refine ⟨_, _, List.mem_append_left _ (List.mem_append_left _ (List.mem_singleton_self _)),
    ?_, ?_⟩
  · nlinarith [hdzx]
  · nlinarith [hdzy]

/-- A missing required point falsifies the `all(...)` presence check. -/
lemma hasAll_eq_false (fp : Snapshot) (fs : List Finger) (h : ∃ f ∈ fs, fp f = none) :
    hasAll fp fs = false := by
  obtain ⟨f, hmem, hnone⟩ := h
  unfold hasAll
  refine List.all_eq_false.mpr ⟨f, hmem, ?_⟩
  rw [hnone]
  simp

/-- Euclidean distances are nonnegative. -/
lemma euclid_nonneg (p q : Pt) : 0 ≤ euclid p q := Real.sqrt_nonneg _

/-- `left_click` on a thumb/index snapshot, reduced to its distance gate. -/
lemma left_click_snapTI (cfg : GestureConfig) (t i : Pt) (palm : ℝ) :
    left_click cfg (snapTI t i) palm =
      if euclid t i < cfg.left_click_threshold * palm
      then some (1 - euclid t i / (cfg.left_click_threshold * palm)) else none := rfl

/-- Scaling a snapshot preserves which points are present. -/
lemma hasAll_scaleSnap (k : ℤ) (fp : Snapshot) (fs : List Finger) :
    hasAll (scaleSnap k fp) fs = hasAll fp fs := by
  unfold hasAll scaleSnap
  induction fs with
  | nil => rfl
  | cons f fs ih =>
    simp only [List.all_cons, ih]
    congr 1
    rcases fp f <;> rfl

/-- Doubling both endpoints doubles the Euclidean distance. -/
lemma euclid_scale2 (p q : Pt) :
    euclid (2 * p.1, 2 * p.2) (2 * q.1, 2 * q.2) = 2 * euclid p q := by
  unfold euclid
  rw [show (((2 * p.1 - 2 * q.1 : ℤ) : ℝ) ^ 2 + ((2 * p.2 - 2 * q.2 : ℤ) : ℝ) ^ 2) =
      2 ^ 2 * (((p.1 - q.1 : ℤ) : ℝ) ^ 2 + ((p.2 - q.2 : ℤ) : ℝ) ^ 2) from by
    push_cast
    ring]
  rw [Real.sqrt_mul (by positivity), Real.sqrt_sq (by norm_num)]

/-- The distance gate and confidence are invariant under doubling distance
and palm size together. -/
lemma distGate_scale2 (d T palm : ℝ) :
    (if 2 * d < T * (2 * palm) then some (1 - 2 * d / (T * (2 * palm))) else none) =
      (if d < T * palm then some (1 - d / (T * palm)) else none) := by
  rw [show T * (2 * palm) = 2 * (T * palm) by ring]
  by_cases hlt : d < T * palm
  · rw [if_pos hlt, if_pos (by linarith)]
    rw [mul_div_mul_left d (T * palm) (two_ne_zero)]
  · rw [if_neg (by intro h2; exact hlt (by linarith)), if_neg hlt]

/-- `move_gesture` evaluated on `snapC7` at palm 100: the truncated midpoint
is `(10, 5)`, the distance `√125`. -/
lemma moveC7_eval : move_gesture defaultConfig snapC7 100 =
    some (1 - Real.sqrt 125 / (2877777778 / 10 ^ 8)) := by
  norm_num [move_gesture, snapC7, hasAll, moveFingers, segSlope, pyHalf, euclid, defaultConfig]
  rw [show Int.tdiv 21 2 = 10 from rfl, show Int.tdiv 10 2 = 5 from rfl]
  norm_num
  exact (Real.sqrt_lt' (by norm_num)).mpr (by norm_num)

/-- `move_gesture` on the doubled snapshot at palm 200: the midpoint is now
the exact `(21, 10)`, the distance `√541 ≠ 2·√125`. -/
lemma moveC7_eval2 : move_gesture defaultConfig (scaleSnap 2 snapC7) 200 =
    some (1 - Real.sqrt 541 / (2 * (2877777778 / 10 ^ 8))) := by
  norm_num [move_gesture, scaleSnap, snapC7, hasAll, moveFingers, segSlope, pyHalf, euclid,
    defaultConfig]
  rw [show Int.tdiv 42 2 = 21 from rfl, show Int.tdiv 20 2 = 10 from rfl]
  norm_num
  exact (Real.sqrt_lt' (by norm_num)).mpr (by norm_num)

/-- A passing presence check yields the guarded points. -/
lemma hasAll_some (fp : Snapshot) (fs : List Finger) (h : hasAll fp fs = true)
    (f : Finger) (hf : f ∈ fs) : ∃ p, fp f = some p := by
  unfold hasAll at h
  exact Option.isSome_iff_exists.mp (List.all_eq_true.mp h f hf)

/-! ## Claim theorems -/

/-- **C4** (code bug).  When exactly one classifier is still pending at the
50 ms deadline and the four others completed in time, `detect_gestures`
does not return the other classifiers' merged map: the `TimeoutError` raised
by the `as_completed` iterator at the `for` statement escapes the
`try`/`except` placed around `future.result()`, so the aggregator raises and
the frame's gestures are lost.  Had all five completed, the merged map with
every result would have been returned (second conjunct). -/
theorem C4_timeout_error_escapes :
    detect_gestures_agg
      [.completed [(.left_click, 9 / 10)], .completed [(.right_click, 4 / 5)],
        .completed [(.move, 1 / 2)], .completed [(.drag, 3 / 5)], .pending] =
      .timeoutError
  ∧ detect_gestures_agg
      [.completed [(.left_click, 9 / 10)], .completed [(.right_click, 4 / 5)],
        .completed [(.move, 1 / 2)], .completed [(.drag, 3 / 5)],
        .completed [(.scroll, 1 / 2), (.scroll_direction, 30)]] =
      .ok [(.left_click, 9 / 10), (.right_click, 4 / 5), (.move, 1 / 2), (.drag, 3 / 5),
        (.scroll, 1 / 2), (.scroll_direction, 30)] := by
  exact ⟨rfl, rfl⟩

/-- **C2** (code bug).  A frame with no detected hand leaves the whole
controller state — in particular `last_raw_position` — unchanged, because
`process_frames` simply never calls `update_mouse` and nothing resets the
position (the `inactivity_threshold` field meant for that is never read).  No
motion is emitted on that frame, but on re-detection the controller computes a
delta from the stale position: after a hand at `(100,100)` with `move` active,
a hand-less frame, and re-detection at `(300,300)`, the controller emits a
`moveRel` jump of `31479/25 = 1259.16` pixels per axis instead of
re-initialising. -/
theorem C2_no_hand_leaves_state_and_stale_delta :
    (∀ (st : MouseState) (t : ℚ), processFrame st none t = (st, []))
  ∧ (let s1 := (processFrame (MouseState.init 6) (some ((100, 100), gMoveOnly, none)) 1).1
     let r2 := processFrame s1 none 2
     let r3 := processFrame r2.1 (some ((300, 300), gMoveOnly, none)) 3
     r2.2 = [] ∧ r2.1.last_raw_position = some (100, 100)
       ∧ r3.2 = [.moveRel (31479 / 25) (31479 / 25)]) := by
  refine ⟨fun st t => rfl, ?_⟩
  norm_num [processFrame, update_mouse, effectiveSensitivity, deadZoneAdjust, buttonStep,
    scrollStep, motionPhase, clickPhase, gMoveOnly, MouseState.init, pytrunc,
    Option.some_ne_none]

/-- **C6** (counterexample).  From the empty-history reset state, the first
`update_position` with `(100,100)` leaves `get_smoothed_position()` at
`(58,58)`, not at the input `(100,100)`: `update_position` pushes the *old*
position — the `(0,0)` initial seed — into the history, and the smoothed
output blends it in. -/
theorem C6_counterexample :
    (Pointer.init.update_position (100, 100)).get_smoothed_position = (58, 58)
  ∧ (Pointer.init.update_position (100, 100)).get_smoothed_position ≠ (100, 100) := by
  have h : (Pointer.init.update_position (100, 100)).get_smoothed_position = (58, 58) := by
    norm_num [Pointer.init, Pointer.update_position, Pointer.get_smoothed_position,
      List.range_succ, pytrunc]
  exact ⟨h, by rw [h]; decide⟩

/-- **C6** (amended).  After a reset, the first `update_position` with `p`
makes `get_smoothed_position()` the truncated `0.7/1.19`-blend of the `(0,0)`
seed and `p` — `⌊10·p/17⌋` componentwise (truncation toward zero) — rather
than `p` itself.  The convergence half of the claim holds: from any reachable
state (history at most 5 entries), six consecutive updates with a constant
position `c` make the smoothed position exactly `c`. -/
theorem C6_smoothing :
    (∀ p : Pt, (Pointer.init.update_position p).get_smoothed_position =
      (pytrunc (10 * (p.1 : ℚ) / 17), pytrunc (10 * (p.2 : ℚ) / 17)))
  ∧ (∀ (pt : Pointer) (c : Pt), pt.prev_positions.length ≤ 5 →
      ((((((pt.update_position c).update_position c).update_position c).update_position
        c).update_position c).update_position c).get_smoothed_position = c) := by
  constructor
  · rintro ⟨px, py⟩
    simp only [Pointer.update_position, Pointer.init, Pointer.get_smoothed_position]
    norm_num [List.range_succ]
    exact ⟨by congr 1; ring, by congr 1; ring⟩
  · rintro ⟨pos, prev⟩ c hlen
    match prev, hlen with
    | [], _ => simp [update_position_eq, get_smoothed_const]
    | [a], _ => simp [update_position_eq, get_smoothed_const]
    | [a, b], _ => simp [update_position_eq, get_smoothed_const]
    | [a, b, d], _ => simp [update_position_eq, get_smoothed_const]
    | [a, b, d, e], _ => simp [update_position_eq, get_smoothed_const]
    | [a, b, d, e, f], _ => simp [update_position_eq, get_smoothed_const]

/-- Witness for the hypothesis of `C6_smoothing`: the reset state has at most
5 history entries, and six constant updates with `(3,4)` reach `(3,4)`. -/
theorem C6_witness :
    Pointer.init.prev_positions.length ≤ 5 ∧
    ((((((Pointer.init.update_position (3, 4)).update_position (3, 4)).update_position
      (3, 4)).update_position (3, 4)).update_position (3, 4)).update_position
      (3, 4)).get_smoothed_position = (3, 4) :=
  ⟨by decide, C6_smoothing.2 Pointer.init (3, 4) (by decide)⟩

/-- **C10**.  Per button, `update_mouse` never emits a press while that
button's held flag is set and never emits a release while it is clear; hence,
over every call sequence from the initial state, each button's emitted
press/release events strictly alternate starting with a press. -/
theorem C10_button_alternation :
    (∀ (st : MouseState) (pos : Option Pt) (g : Gestures) (palm : Option ℚ) (t : ℚ),
      (MouseAction.mouseDown .left ∈ (update_mouse st pos g palm t).2 →
        st.left_button_down = false)
      ∧ (MouseAction.mouseUp .left ∈ (update_mouse st pos g palm t).2 →
        st.left_button_down = true)
      ∧ (MouseAction.mouseDown .right ∈ (update_mouse st pos g palm t).2 →
        st.right_button_down = false)
      ∧ (MouseAction.mouseUp .right ∈ (update_mouse st pos g palm t).2 →
        st.right_button_down = true))
  ∧ (∀ (sens : ℚ) (inputs : List MouseInput),
      altFrom true (buttonEvents .left (runMouse (MouseState.init sens) inputs).2)
      ∧ altFrom true (buttonEvents .right (runMouse (MouseState.init sens) inputs).2)) := by
  constructor
  · intro st pos g palm t
    exact ⟨down_requires_not_held st pos g palm t .left,
      up_requires_held st pos g palm t .left,
      down_requires_not_held st pos g palm t .right,
      up_requires_held st pos g palm t .right⟩
  · intro sens inputs
    exact ⟨altFrom_runMouse .left inputs (MouseState.init sens),
      altFrom_runMouse .right inputs (MouseState.init sens)⟩

/-- Witness for the hypotheses of `C10_button_alternation`: a concrete second
frame with `left_click` held emits a left press, and the pre-state's left
flag is indeed clear. -/
theorem C10_witness :
    MouseAction.mouseDown .left ∈
      (update_mouse (update_mouse (MouseState.init 6) (some (0, 0)) {} none 0).1
        (some (0, 0)) gLeftOnly none 1).2
  ∧ (update_mouse (MouseState.init 6) (some (0, 0)) {} none 0).1.left_button_down = false := by
  have hacts : (update_mouse (update_mouse (MouseState.init 6) (some (0, 0)) {} none 0).1
      (some (0, 0)) gLeftOnly none 1).2 = [MouseAction.mouseDown .left] := by
    norm_num [update_mouse, effectiveSensitivity, deadZoneAdjust, buttonStep, scrollStep,
      motionPhase, clickPhase, gLeftOnly, MouseState.init, Option.some_ne_none]
  have hmem : MouseAction.mouseDown .left ∈
      (update_mouse (update_mouse (MouseState.init 6) (some (0, 0)) {} none 0).1
        (some (0, 0)) gLeftOnly none 1).2 := by
    rw [hacts]
    exact List.mem_singleton.mpr rfl
  exact ⟨hmem, (C10_button_alternation.1 _ _ _ _ _).1 hmem⟩

/-- **C1** (amended).  First call after `last_raw_position is None`: the
controller only records the position, seeds the 5-slot history, sets
`last_delta = (0,0)` and emits nothing.  Second call with `move` active and a
displacement whose scaled per-axis magnitude clears the dead zone: a nonzero
relative-move delta is emitted whose direction *equals* that of the raw
displacement (not its opposite: the `-effective_sensitivity` factor and the
later "invert movement direction" negation cancel). -/
theorem C1_first_records_second_emits (st : MouseState) (p q : Pt) (g g' : Gestures)
    (palm palm' : Option ℚ) (t t' : ℚ)
    (hraw : st.last_raw_position = none)
    (hs : 0 < st.sensitivity)
    (hmove : g'.move.isSome = true)
    (hdx : 4 / 5 < |((q.1 - p.1 : ℤ) : ℚ)| * effectiveSensitivity st.sensitivity palm')
    (hdy : 4 / 5 < |((q.2 - p.2 : ℤ) : ℚ)| * effectiveSensitivity st.sensitivity palm') :
    update_mouse st (some p) g palm t =
      ({ st with last_raw_position := some p, last_delta := some (0, 0),
                 position_history := List.replicate 5 p }, [])
    ∧ ∃ mx my : ℚ,
        MouseAction.moveRel mx my ∈
          (update_mouse (update_mouse st (some p) g palm t).1 (some q) g' palm' t').2
        ∧ 0 < mx * ((q.1 - p.1 : ℤ) : ℚ) ∧ 0 < my * ((q.2 - p.2 : ℤ) : ℚ) := by
  have h1 := update_mouse_init st p g palm t hraw
  refine ⟨h1, ?_⟩
  rw [h1]
  obtain ⟨qx, qy⟩ := q
  exact update_mouse_second_emits _ p qx qy g' palm' t' rfl rfl hs hmove hdx hdy

/-- **C1** (counterexample to the claimed direction).  From the freshly
initialised state at `(0,0)`, a second call at `(10,0)` with `move` active
emits `moveRel (+62.16, 0)`: the emitted x-delta has the *same* sign as the
raw displacement `+10`, not the opposite sign the claim asserts. -/
theorem C1_counterexample :
    (update_mouse (update_mouse (MouseState.init 6) (some (0, 0)) gMoveOnly none 0).1
      (some (10, 0)) gMoveOnly none 1).2 = [.moveRel (1554 / 25) 0]
  ∧ 0 < (1554 / 25 : ℚ) * ((10 : ℤ) - 0 : ℤ) := by
  constructor
  · norm_num [update_mouse, effectiveSensitivity, deadZoneAdjust, buttonStep, scrollStep,
      motionPhase, clickPhase, gMoveOnly, MouseState.init, Option.some_ne_none]
  · norm_num

/-- Witness for the hypotheses of `C1_first_records_second_emits` at
`p = (0,0)`, `q = (10,-10)`, sensitivity 6, no palm scaling. -/
theorem C1_witness :
    (MouseState.init 6).last_raw_position = none
  ∧ (0 : ℚ) < (MouseState.init 6).sensitivity
  ∧ gMoveOnly.move.isSome = true
  ∧ 4 / 5 < |((((10, -10) : Pt).1 - ((0, 0) : Pt).1 : ℤ) : ℚ)| *
      effectiveSensitivity (MouseState.init 6).sensitivity none
  ∧ 4 / 5 < |((((10, -10) : Pt).2 - ((0, 0) : Pt).2 : ℤ) : ℚ)| *
      effectiveSensitivity (MouseState.init 6).sensitivity none
  ∧ (update_mouse (MouseState.init 6) (some (0, 0)) {} none 0 =
      ({ MouseState.init 6 with last_raw_position := some (0, 0), last_delta := some (0, 0),
                                position_history := List.replicate 5 (0, 0) }, [])
    ∧ ∃ mx my : ℚ,
        MouseAction.moveRel mx my ∈
          (update_mouse (update_mouse (MouseState.init 6) (some (0, 0)) {} none 0).1
            (some (10, -10)) gMoveOnly none 1).2
        ∧ 0 < mx * ((((10, -10) : Pt).1 - ((0, 0) : Pt).1 : ℤ) : ℚ)
        ∧ 0 < my * ((((10, -10) : Pt).2 - ((0, 0) : Pt).2 : ℤ) : ℚ)) :=
  ⟨rfl, by norm_num [MouseState.init], rfl,
    by norm_num [MouseState.init, effectiveSensitivity],
    by norm_num [MouseState.init, effectiveSensitivity],
    C1_first_records_second_emits (MouseState.init 6) (0, 0) (10, -10) {} gMoveOnly
      none none 0 1 rfl (by norm_num [MouseState.init]) rfl
      (by norm_num [MouseState.init, effectiveSensitivity])
      (by norm_num [MouseState.init, effectiveSensitivity])⟩

/-- **C8**.  Every classifier whose snapshot is missing at least one of its
required named points returns no result for that frame: the `all(...)` guard
fails before any point is touched, so no default or partially evaluated value
can be produced. -/
theorem C8_missing_points (cfg : GestureConfig) (fp : Snapshot) (palm : ℝ) :
    ((∃ f ∈ leftClickFingers, fp f = none) → left_click cfg fp palm = none)
  ∧ ((∃ f ∈ rightClickFingers, fp f = none) → right_click cfg fp palm = none)
  ∧ ((∃ f ∈ moveFingers, fp f = none) → move_gesture cfg fp palm = none)
  ∧ ((∃ f ∈ dragFingers, fp f = none) → drag_gesture cfg fp palm = none)
  ∧ ((∃ f ∈ scrollRequiredPoints, fp f = none) → scroll_gesture cfg fp palm = none) := by
  refine ⟨fun h => ?_, fun h => ?_, fun h => ?_, fun h => ?_, fun h => ?_⟩
  · unfold left_click
    rw [hasAll_eq_false fp _ h]
    rfl
  · unfold right_click
    rw [hasAll_eq_false fp _ h]
    rfl
  · unfold move_gesture
    rw [hasAll_eq_false fp _ h]
    rfl
  · unfold drag_gesture
    rw [hasAll_eq_false fp _ h]
    rfl
  · unfold scroll_gesture
    rw [hasAll_eq_false fp _ h]
    rfl

/-- Witness for the hypotheses of `C8_missing_points`: the empty snapshot is
missing a required point of every classifier, and each returns `none`. -/
theorem C8_witness :
    left_click defaultConfig emptySnap 100 = none
  ∧ right_click defaultConfig emptySnap 100 = none
  ∧ move_gesture defaultConfig emptySnap 100 = none
  ∧ drag_gesture defaultConfig emptySnap 100 = none
  ∧ scroll_gesture defaultConfig emptySnap 100 = none :=
  ⟨(C8_missing_points defaultConfig emptySnap 100).1 ⟨.thumb, by simp [leftClickFingers], rfl⟩,
   (C8_missing_points defaultConfig emptySnap 100).2.1 ⟨.thumb, by simp [rightClickFingers], rfl⟩,
   (C8_missing_points defaultConfig emptySnap 100).2.2.1 ⟨.index, by simp [moveFingers], rfl⟩,
   (C8_missing_points defaultConfig emptySnap 100).2.2.2.1 ⟨.ring, by simp [dragFingers], rfl⟩,
   (C8_missing_points defaultConfig emptySnap 100).2.2.2.2 ⟨.wrist, by simp [scrollRequiredPoints], rfl⟩⟩

/-- **C3** (amended).  For positive threshold and palm size, the `left_click`
confidence is strictly decreasing in the raw thumb–index distance over the
domain where a result is reported, is at most 1, equals exactly 1.0 at
distance 0 — but at distance `threshold * palm_size` (and beyond) the
classifier returns *no result* rather than a confidence of 0.0: the gate is
the strict `distance < true_threshold`. -/
theorem C3_left_click_confidence (cfg : GestureConfig) (palm : ℝ) (t1 i1 t2 i2 : Pt)
    (ht : 0 < cfg.left_click_threshold) (hp : 0 < palm)
    (hd : euclid t1 i1 ≤ euclid t2 i2) :
    (∀ c2, left_click cfg (snapTI t2 i2) palm = some c2 →
      ∃ c1, left_click cfg (snapTI t1 i1) palm = some c1 ∧ c2 ≤ c1 ∧ c1 ≤ 1
        ∧ (euclid t1 i1 < euclid t2 i2 → c2 < c1))
  ∧ (euclid t1 i1 = 0 → left_click cfg (snapTI t1 i1) palm = some 1)
  ∧ (cfg.left_click_threshold * palm ≤ euclid t2 i2 →
      left_click cfg (snapTI t2 i2) palm = none) := by
  have hT : 0 < cfg.left_click_threshold * palm := mul_pos ht hp
  refine ⟨?_, ?_, ?_⟩
  · intro c2 h2
    rw [left_click_snapTI] at h2
    by_cases hlt : euclid t2 i2 < cfg.left_click_threshold * palm
    · rw [if_pos hlt] at h2
      have hc2 : c2 = 1 - euclid t2 i2 / (cfg.left_click_threshold * palm) :=
        (Option.some_injective _ h2).symm
      refine ⟨1 - euclid t1 i1 / (cfg.left_click_threshold * palm), ?_, ?_, ?_, ?_⟩
      · rw [left_click_snapTI, if_pos (lt_of_le_of_lt hd hlt)]
      · rw [hc2]
        have := (div_le_div_iff_of_pos_right hT).mpr hd
        linarith
      · have h0 := euclid_nonneg t1 i1
        have : 0 ≤ euclid t1 i1 / (cfg.left_click_threshold * palm) := by positivity
        linarith
      · intro hstrict
        rw [hc2]
        have := (div_lt_div_iff_of_pos_right hT).mpr hstrict
        linarith
    · rw [if_neg hlt] at h2
      exact absurd h2 (by simp)
  · intro h0
    rw [left_click_snapTI, h0, if_pos hT]
    norm_num
  · intro hge
    rw [left_click_snapTI, if_neg (not_lt.mpr hge)]

/-- **C3** (counterexample).  At thumb `(0,0)`, index `(5,0)` and a palm size
making `threshold * palm_size` exactly 5 = the distance, `left_click` returns
`none`, not the confidence-0 entry the claim asserts. -/
theorem C3_counterexample :
    left_click defaultConfig (snapTI (0, 0) (5, 0)) ((50000000000 : ℝ) / 2244444444) = none
  ∧ left_click defaultConfig (snapTI (0, 0) (5, 0)) ((50000000000 : ℝ) / 2244444444) ≠
      some 0 := by
  have he : euclid (0, 0) (5, 0) = 5 := by
    unfold euclid
    norm_num
    rw [show (25 : ℝ) = 5 ^ 2 by norm_num, Real.sqrt_sq (by norm_num)]
  have hT : defaultConfig.left_click_threshold * ((50000000000 : ℝ) / 2244444444) = 5 := by
    unfold defaultConfig
    norm_num
  have h : left_click defaultConfig (snapTI (0, 0) (5, 0))
      ((50000000000 : ℝ) / 2244444444) = none := by
    rw [left_click_snapTI, he, hT, if_neg (lt_irrefl 5)]
  exact ⟨h, by rw [h]; simp⟩

/-- Witness for the hypotheses of `C3_left_click_confidence` with the default
threshold, palm 100, coincident pair vs. a 3-4-5 pair. -/
theorem C3_witness :
    (0 : ℝ) < defaultConfig.left_click_threshold
  ∧ (0 : ℝ) < 100
  ∧ euclid (0, 0) (0, 0) ≤ euclid (0, 0) (3, 4)
  ∧ ((∀ c2, left_click defaultConfig (snapTI (0, 0) (3, 4)) 100 = some c2 →
      ∃ c1, left_click defaultConfig (snapTI (0, 0) (0, 0)) 100 = some c1 ∧ c2 ≤ c1 ∧ c1 ≤ 1
        ∧ (euclid (0, 0) (0, 0) < euclid (0, 0) (3, 4) → c2 < c1))
    ∧ (euclid (0, 0) (0, 0) = 0 →
        left_click defaultConfig (snapTI (0, 0) (0, 0)) 100 = some 1)
    ∧ (defaultConfig.left_click_threshold * 100 ≤ euclid (0, 0) (3, 4) →
        left_click defaultConfig (snapTI (0, 0) (3, 4)) 100 = none)) := by
  have h1 : (0 : ℝ) < defaultConfig.left_click_threshold := by norm_num [defaultConfig]
  have h2 : (0 : ℝ) < 100 := by norm_num
  have h3 : euclid (0, 0) (0, 0) ≤ euclid (0, 0) (3, 4) := by
    rw [show euclid (0, 0) (0, 0) = 0 from by unfold euclid; norm_num]
    exact euclid_nonneg _ _
  exact ⟨h1, h2, h3, C3_left_click_confidence defaultConfig 100 (0, 0) (0, 0) (0, 0) (3, 4)
    h1 h2 h3⟩

/-- **C9**.  With thumb `(100,100)`, index `(105,102)`, `palm_size = 100` and
`left_click.threshold = 0.22`: the distance is `√29 ≈ 5.39`, the absolute
threshold 22, and the reported confidence `1 − √29/22 ≈ 0.755`, which rounds
to `0.76` at two decimals. -/
theorem C9_scenario :
    ∃ c : ℝ, left_click scenarioConfig (snapTI (100, 100) (105, 102)) 100 = some c
      ∧ c = 1 - Real.sqrt 29 / 22
      ∧ |c - 0.755| < 1 / 1000
      ∧ round ((100 : ℝ) * c) = 76 := by
  have he : euclid (100, 100) (105, 102) = Real.sqrt 29 := by
    unfold euclid
    norm_num
  have hT : scenarioConfig.left_click_threshold * (100 : ℝ) = 22 := by
    norm_num [scenarioConfig, defaultConfig]
  have hlo : (5385 : ℝ) / 1000 < Real.sqrt 29 :=
    (Real.lt_sqrt (by norm_num)).mpr (by norm_num)
  have hhi : Real.sqrt 29 < (5386 : ℝ) / 1000 :=
    (Real.sqrt_lt' (by norm_num)).mpr (by norm_num)
  refine ⟨1 - Real.sqrt 29 / 22, ?_, rfl, ?_, ?_⟩
  · rw [left_click_snapTI, he, hT, if_pos (by nlinarith)]
  · rw [abs_lt]
    constructor <;> nlinarith
  · rw [round_eq, show (76 : ℤ) = (76 : ℤ) from rfl, Int.floor_eq_iff]
    constructor <;> [skip; skip] <;> push_cast <;> nlinarith

/-- **C7** (amended).  `left_click` and `right_click` are scale-invariant:
doubling every landmark coordinate and the palm size together yields the same
result.  (`move_gesture` is not: see the counterexample — its integer-truncated
middle-finger midpoint breaks exact invariance.) -/
theorem C7_click_scale_invariance (cfg : GestureConfig) (fp : Snapshot) (palm : ℝ) :
    left_click cfg (scaleSnap 2 fp) (2 * palm) = left_click cfg fp palm
  ∧ right_click cfg (scaleSnap 2 fp) (2 * palm) = right_click cfg fp palm := by
  constructor
  · unfold left_click
    rw [hasAll_scaleSnap]
    by_cases hall : hasAll fp leftClickFingers
    · rw [if_pos hall, if_pos hall,
        show scaleSnap 2 fp .thumb = (fp .thumb).map (fun p => (2 * p.1, 2 * p.2)) from rfl,
        show scaleSnap 2 fp .index = (fp .index).map (fun p => (2 * p.1, 2 * p.2)) from rfl]
      rcases fp .thumb with _ | t <;> rcases fp .index with _ | i <;>
        simp only [Option.map_none', Option.map_some']
      rw [euclid_scale2]
      exact distGate_scale2 _ _ _
    · rw [if_neg hall, if_neg hall]
  · unfold right_click
    rw [hasAll_scaleSnap]
    by_cases hall : hasAll fp rightClickFingers
    · rw [if_pos hall, if_pos hall,
        show scaleSnap 2 fp .thumb = (fp .thumb).map (fun p => (2 * p.1, 2 * p.2)) from rfl,
        show scaleSnap 2 fp .middle = (fp .middle).map (fun p => (2 * p.1, 2 * p.2)) from rfl]
      rcases fp .thumb with _ | t <;> rcases fp .middle with _ | m <;>
        simp only [Option.map_none', Option.map_some']
      rw [euclid_scale2]
      exact distGate_scale2 _ _ _
    · rw [if_neg hall, if_neg hall]

/-- **C7** (counterexample).  `move_gesture` is not scale-invariant: on
`snapC7` the midpoint `int((10+11)/2) = 10` truncates, while on the doubled
snapshot it is exactly `21`, so the confidences `1 − √125/T` and `1 − √541/2T`
differ (`541 ≠ 4·125`). -/
theorem C7_counterexample :
    move_gesture defaultConfig (scaleSnap 2 snapC7) (2 * 100) ≠
      move_gesture defaultConfig snapC7 100 := by
  rw [show (2 * 100 : ℝ) = 200 by norm_num, moveC7_eval2, moveC7_eval]
  intro h
  have h2 := Option.some_injective _ h
  have h3 : Real.sqrt 541 = 2 * Real.sqrt 125 := by
    field_simp at h2
    linarith
  have h4 : (541 : ℝ) = 2 ^ 2 * 125 := by
    calc (541 : ℝ) = Real.sqrt 541 ^ 2 := (Real.sq_sqrt (by norm_num)).symm
    _ = (2 * Real.sqrt 125) ^ 2 := by rw [h3]
    _ = 2 ^ 2 * Real.sqrt 125 ^ 2 := by ring
    _ = 2 ^ 2 * 125 := by rw [Real.sq_sqrt (by norm_num)]
  norm_num at h4

/-- **C5**.  For every configuration with `base_speed ≤ max_speed` and a
positive straightness exponent (the settings slider confines it to
`[0.5, 4.0]`): the scroll speed curve is exactly
`base + straightness^factor * (max − base)`; it is monotonically
non-decreasing in the average straightness, equals `base_speed` at
straightness 0 and `max_speed` at straightness 1; and whenever
`scroll_gesture` emits, the magnitude of its `scroll_direction` is the curve
evaluated at the snapshot's average finger straightness (negated when the
fingers point up). -/
theorem C5_scroll_speed (cfg : GestureConfig)
    (hbm : cfg.scroll_base_speed ≤ cfg.scroll_max_speed)
    (hf : 0 < cfg.straightness_factor) :
    (∀ s : ℝ, scrollSpeed cfg s =
      cfg.scroll_base_speed + s ^ cfg.straightness_factor *
        (cfg.scroll_max_speed - cfg.scroll_base_speed))
  ∧ (∀ s1 s2 : ℝ, 0 ≤ s1 → s1 ≤ s2 → scrollSpeed cfg s1 ≤ scrollSpeed cfg s2)
  ∧ scrollSpeed cfg 0 = cfg.scroll_base_speed
  ∧ scrollSpeed cfg 1 = cfg.scroll_max_speed
  ∧ (∀ (fp : Snapshot) (palm : ℝ) (c d : ℝ),
      scroll_gesture cfg fp palm = some (c, d) →
      d = scrollSpeed cfg (scrollAvgStraightness fp) ∨
      d = -scrollSpeed cfg (scrollAvgStraightness fp)) := by
  refine ⟨fun s => rfl, ?_, ?_, ?_, ?_⟩
  · intro s1 s2 h0 h12
    unfold scrollSpeed
    have hr := Real.rpow_le_rpow h0 h12 hf.le
    have hmb : 0 ≤ cfg.scroll_max_speed - cfg.scroll_base_speed := sub_nonneg.mpr hbm
    nlinarith
  · unfold scrollSpeed
    rw [Real.zero_rpow hf.ne']
    ring
  · unfold scrollSpeed
    rw [Real.one_rpow]
    ring
  · intro fp palm c d h
    unfold scroll_gesture at h
    by_cases hall : hasAll fp scrollRequiredPoints
    · rw [if_pos hall] at h
      obtain ⟨m1, hm1⟩ := hasAll_some fp _ hall .middle (by simp [scrollRequiredPoints])
      obtain ⟨m2, hm2⟩ := hasAll_some fp _ hall .dip_middle (by simp [scrollRequiredPoints])
      obtain ⟨m3, hm3⟩ := hasAll_some fp _ hall .pip_middle (by simp [scrollRequiredPoints])
      obtain ⟨r1, hr1⟩ := hasAll_some fp _ hall .ring (by simp [scrollRequiredPoints])
      obtain ⟨r2, hr2⟩ := hasAll_some fp _ hall .dip_ring (by simp [scrollRequiredPoints])
      obtain ⟨r3, hr3⟩ := hasAll_some fp _ hall .pip_ring (by simp [scrollRequiredPoints])
      obtain ⟨w, hw⟩ := hasAll_some fp _ hall .wrist (by simp [scrollRequiredPoints])
      obtain ⟨pc, hpc⟩ := hasAll_some fp _ hall .palm_center (by simp [scrollRequiredPoints])
      rw [hm1, hm2, hm3, hr1, hr2, hr3, hw, hpc] at h
      unfold scrollAvgStraightness
      rw [hm1, hm2, hm3, hr1, hr2, hr3]
      dsimp only at h ⊢
      split at h
      · exact absurd h (by simp)
      · split at h
        · exact absurd h (by simp)
        · split at h
          · have hpair := Option.some_injective _ h
            have hd : (if decide (m1.2 - m3.2 < 0) = true
                then -scrollSpeed cfg ((straightnessScore (segSlope (m1.1 - m2.1) (m1.2 - m2.2))
                    (segSlope (m3.1 - m2.1) (m3.2 - m2.2)) +
                  straightnessScore (segSlope (r1.1 - r2.1) (r1.2 - r2.2))
                    (segSlope (r3.1 - r2.1) (r3.2 - r2.2))) / 2)
                else scrollSpeed cfg ((straightnessScore (segSlope (m1.1 - m2.1) (m1.2 - m2.2))
                    (segSlope (m3.1 - m2.1) (m3.2 - m2.2)) +
                  straightnessScore (segSlope (r1.1 - r2.1) (r1.2 - r2.2))
                    (segSlope (r3.1 - r2.1) (r3.2 - r2.2))) / 2)) = d :=
              congrArg Prod.snd hpair
            split at hd
            · exact Or.inr hd.symm
            · exact Or.inl hd.symm
          · exact absurd h (by simp)
    · rw [if_neg hall] at h
      exact absurd h (by simp)

/-- Witness for the hypotheses of `C5_scroll_speed` at the default
configuration (`base 20 ≤ max 80`, exponent `3.3 > 0`). -/
theorem C5_witness :
    defaultConfig.scroll_base_speed ≤ defaultConfig.scroll_max_speed
  ∧ (0 : ℝ) < defaultConfig.straightness_factor
  ∧ ((∀ s : ℝ, scrollSpeed defaultConfig s =
      defaultConfig.scroll_base_speed + s ^ defaultConfig.straightness_factor *
        (defaultConfig.scroll_max_speed - defaultConfig.scroll_base_speed))
    ∧ (∀ s1 s2 : ℝ, 0 ≤ s1 → s1 ≤ s2 →
        scrollSpeed defaultConfig s1 ≤ scrollSpeed defaultConfig s2)
    ∧ scrollSpeed defaultConfig 0 = defaultConfig.scroll_base_speed
    ∧ scrollSpeed defaultConfig 1 = defaultConfig.scroll_max_speed
    ∧ (∀ (fp : Snapshot) (palm : ℝ) (c d : ℝ),
        scroll_gesture defaultConfig fp palm = some (c, d) →
        d = scrollSpeed defaultConfig (scrollAvgStraightness fp) ∨
        d = -scrollSpeed defaultConfig (scrollAvgStraightness fp))) :=
  ⟨by norm_num [defaultConfig], by norm_num [defaultConfig],
   C5_scroll_speed defaultConfig (by norm_num [defaultConfig])
     (by norm_num [defaultConfig])⟩

end Handy
